import Mathlib

/-!
Verification of `src/data/tiger/load-with-python.py`: a script that bulk-loads
TIGER shapefiles / GeoJSON files into a PostGIS database.

Shallow embedding: the script's pure orchestration logic (file resolution,
CRS normalization, replace/append write modes, success/failure counting,
console output) is translated into Lean functions.  The external world —
the filesystem, the geospatial reader `gpd.read_file`, the database write
`to_postgis`, and CRS reprojection — is an explicit environment `Env` the
functions consume.  Console output is modelled as a list of structured
`LogLine` values, each constructor corresponding to one `print` statement of
the script (a `render` function gives the exact printed text).  Database
writes are modelled as a list of `WriteEvent`s recording the table name, the
write mode (`if_exists=` argument), the dataframe's CRS at the moment of the
write, the SRID annotation of the `dtype=` argument, and the record count.

The interactive password prompt and SQLAlchemy engine construction
(`get_connection_string`, `create_engine`) are pure I/O with no logic and are
not modelled.
-/

namespace Tiger

/-- Abstract geometry payload: one geometry per record.  Reprojection acts on
these through the environment's `reproject` function. -/
abbrev Geom := Nat

/-- In-memory geographic dataset, as produced by `gpd.read_file`: a declared
CRS (possibly absent), a list of column names, and one geometry per record.
`len(gdf)` is `gdf.geometry.length`. -/
structure GeoDataFrame where
  crs : Option String
  columns : List String
  geometry : List Geom
  deriving Repr, DecidableEq

/-- The `if_exists=` argument of `to_postgis`. -/
inductive WriteMode where
  | replace
  | append
  deriving Repr, DecidableEq

/-- One successful `to_postgis` call: target table, write mode, the
dataframe's CRS at the moment of the write, the SRID of the
`dtype={'geometry': Geometry('GEOMETRY', srid=...)}` annotation, and the
number of records written. -/
structure WriteEvent where
  table : String
  mode : WriteMode
  crs : Option String
  srid : Nat
  count : Nat
  deriving Repr, DecidableEq

/-- One console line; each constructor corresponds to one `print` statement of
the script, carrying the f-string interpolation arguments. -/
inductive LogLine where
  /-- `"=" * 60` -/
  | sep
  /-- `print()` -/
  | blank
  /-- a fixed literal line (titles, section headers, closing notes) -/
  | text (s : String)
  /-- `f"Loading {file_type}: {Path(filepath).name} → {table_name}..."` -/
  | loading (fileType name table : String)
  /-- `f"  ⚠ Warning: Missing shapefile component files: {', '.join(missing)}"` -/
  | warnMissing (missing : List String)
  /-- `f"     Shapefiles require .shp, .shx, and .dbf files in the same directory."` -/
  | warnMissingHelp
  /-- `f"  ✓ Loaded {len(gdf)} records"` -/
  | loadedRecords (n : Nat)
  /-- `f"  ✗ Error: {e}"` (inside `load_geographic_file`) -/
  | errorMsg (e : String)
  /-- `f"  Shapefile not found, trying GeoJSON: {geojson_path.name}"` -/
  | tryGeoJSON (name : String)
  /-- `f"  ⚠ File not found: {filename} (tried .shp and .geojson)"` -/
  | fileNotFound (filename : String)
  /-- `f"  Found {len(place_files)} place files"` -/
  | foundPlaceFiles (n : Nat)
  /-- `f"  Appending {place_file.name}..."` -/
  | appending (name : String)
  /-- `f"    ✓ Appended {len(gdf)} records"` -/
  | appendedRecords (n : Nat)
  /-- `f"    ✗ Error: {e}"` (inside the append loop of `main`) -/
  | appendError (e : String)
  /-- `f"✓ Loaded: {loaded} file(s)"` -/
  | summaryLoaded (n : Nat)
  /-- `f"✗ Failed: {failed} file(s)"` -/
  | summaryFailed (n : Nat)
  deriving Repr, DecidableEq

/-- Exact text of a log line, as printed by the script. -/
def LogLine.render : LogLine → String
  | .sep => String.mk (List.replicate 60 '=')
  | .blank => ""
  | .text s => s
  | .loading ft name table => "Loading " ++ ft ++ ": " ++ name ++ " → " ++ table ++ "..."
  | .warnMissing missing =>
      "  ⚠ Warning: Missing shapefile component files: " ++ String.intercalate ", " missing
  | .warnMissingHelp => "     Shapefiles require .shp, .shx, and .dbf files in the same directory."
  | .loadedRecords n => "  ✓ Loaded " ++ toString n ++ " records"
  | .errorMsg e => "  ✗ Error: " ++ e
  | .tryGeoJSON name => "  Shapefile not found, trying GeoJSON: " ++ name
  | .fileNotFound filename => "  ⚠ File not found: " ++ filename ++ " (tried .shp and .geojson)"
  | .foundPlaceFiles n => "  Found " ++ toString n ++ " place files"
  | .appending name => "  Appending " ++ name ++ "..."
  | .appendedRecords n => "    ✓ Appended " ++ toString n ++ " records"
  | .appendError e => "    ✗ Error: " ++ e
  | .summaryLoaded n => "✓ Loaded: " ++ toString n ++ " file(s)"
  | .summaryFailed n => "✗ Failed: " ++ toString n ++ " file(s)"

/-- The external world the script interacts with:
filesystem existence checks (`Path.exists`), the geospatial reader
(`gpd.read_file`, which either returns a dataset or raises, modelled as
`Except`), the database write (`to_postgis`, which either succeeds, `none`,
or raises with a message, `some e`), CRS reprojection (`to_crs`, acting on
each geometry), the sorted result of `tiger_dir.glob("tl_2024_*_place.shp")`,
and the directory the script resolves (`Path(__file__).parent`). -/
structure Env where
  fileExists : String → Bool
  readFile : String → Except String GeoDataFrame
  writeResult : String → GeoDataFrame → Option String
  reproject : String → String → Geom → Geom
  placeFiles : List String
  tigerDir : String

/-- Characters of the last `/`-separated component of a path. -/
def nameChars (cs : List Char) : List Char :=
  cs.foldl (fun acc c => if c = '/' then [] else acc ++ [c]) []

/-- `Path(p).name`: the last `/`-separated component. -/
def pathName (p : String) : String :=
  String.mk (nameChars p.data)

/-- Index of the last `.` in a character list (`name.rfind('.')`). -/
def lastDotIdx (cs : List Char) : Option Nat :=
  ((cs.enum.filter fun pc => pc.2 = '.').map fun pc => pc.1).getLast?

/-- `Path(p).suffix`: `name[i:]` for the last dot index `i` when
`0 < i < len(name) - 1`, else empty (pathlib's rule: a leading or trailing
dot yields no suffix). -/
def pathSuffix (p : String) : String :=
  let name := nameChars p.data
  match lastDotIdx name with
  | some i => if 0 < i ∧ i + 1 < name.length then String.mk (name.drop i) else ""
  | none => ""

/-- `Path(p).with_suffix('')`: drop the suffix. -/
def withoutSuffix (p : String) : String :=
  String.mk (p.data.take (p.data.length - (pathSuffix p).data.length))

/-- Left-to-right non-overlapping replacement on character lists, fuelled by
the input length (each step consumes at least one character). -/
def replaceAux (pat rep : List Char) : Nat → List Char → List Char
  | 0, s => s
  | fuel + 1, s =>
      match s with
      | [] => []
      | c :: rest =>
          if pat.isPrefixOf s ∧ pat ≠ [] then rep ++ replaceAux pat rep fuel (s.drop pat.length)
          else c :: replaceAux pat rep fuel rest

/-- Python `s.replace(pat, rep)` for a nonempty pattern: replace every
(left-to-right, non-overlapping) occurrence. -/
def replaceAll (s pat rep : String) : String :=
  String.mk (replaceAux pat.data rep.data s.data.length s.data)

/-- Python `s.lower()` for the ASCII strings the script compares. -/
def toLowerStr (s : String) : String :=
  String.mk (s.data.map Char.toLower)

/-- `Path(p).with_suffix(s)` for a path already stripped, as used in the
script: `base_path.with_suffix('.shx')` etc. -/
def withSuffix (p s : String) : String :=
  withoutSuffix p ++ s

/-- Lines 40-45 of the script: the list of missing shapefile companion files,
`['SHX' if .shx missing] ++ ['DBF' if .dbf missing]` (dict iteration order is
insertion order: shx first, then dbf). -/
def missing_components (env : Env) (filepath : String) : List String :=
  (if env.fileExists (withSuffix filepath ".shx") then [] else ["SHX"]) ++
    (if env.fileExists (withSuffix filepath ".dbf") then [] else ["DBF"])

/-- Lines 59-63 of the script, the CRS-normalization step of
`load_geographic_file`:
```
if gdf.crs is None:
    gdf.set_crs('EPSG:4326', inplace=True)
elif gdf.crs.to_string() != 'EPSG:4326':
    gdf.to_crs('EPSG:4326', inplace=True)
```
`set_crs` only assigns the CRS tag (geometries untouched); `to_crs`
reprojects every geometry. -/
def normalize_crs (reproject : String → String → Geom → Geom)
    (gdf : GeoDataFrame) : GeoDataFrame :=
  match gdf.crs with
  | none => { gdf with crs := some "EPSG:4326" }
  | some c =>
      if c ≠ "EPSG:4326" then
        { gdf with crs := some "EPSG:4326",
                   geometry := gdf.geometry.map (reproject c "EPSG:4326") }
      else gdf

/-- The message of the `AttributeError` raised on line 57.  External library
fact: `geopandas.GeoDataFrame` has no method `rename_columns` (the pandas
API is `rename(columns=...)`), so the call
`gdf.rename_columns({gdf.geometry.name: 'geometry'})` raises
`AttributeError`, which the `except` block on line 77 catches. -/
def renameColumnsError : String :=
  "AttributeError: GeoDataFrame object has no attribute rename_columns"

/-- Lines 34-35 of the script: the announced file type, from the lowercased
suffix. -/
def load_file_type (filepath : String) : String :=
  if toLowerStr (pathSuffix filepath) = ".geojson" ∨ toLowerStr (pathSuffix filepath) = ".json" then
    "GeoJSON"
  else "Shapefile"

/-- Lines 38-48 of the script: the completeness-check warning lines printed
for a `.shp` input with missing companion files (and nothing otherwise). -/
def load_warnings (env : Env) (filepath : String) : List LogLine :=
  if toLowerStr (pathSuffix filepath) = ".shp" then
    if missing_components env filepath ≠ [] then
      [.warnMissing (missing_components env filepath), .warnMissingHelp]
    else []
  else []

/-- Observable outcome of one `load_geographic_file` call: the boolean return
value, the console lines printed, the successful `to_postgis` calls made, and
the filepaths handed to `gpd.read_file` (the read attempts). -/
structure LoadResult where
  success : Bool
  log : List LogLine
  writes : List WriteEvent
  reads : List String
  deriving Repr, DecidableEq

/-- Lines 28-79 of the script: `load_geographic_file(engine, filepath,
table_name, geoid_field="GEOID")`.  Reads the file, ensures the geometry
column is named `geometry`, normalizes the CRS to WGS84, and writes with
`if_exists='replace'` and `dtype={'geometry': Geometry('GEOMETRY',
srid=4326)}`.  Any exception in the `try` block is caught, printed, and turns
the result into `False`.  `geoid_field` is accepted but never used, as in the
source. -/
def load_geographic_file (env : Env) (filepath table_name : String)
    (geoid_field : String := "GEOID") : LoadResult :=
  let _ := geoid_field
  let header : List LogLine := [.loading (load_file_type filepath) (pathName filepath) table_name]
  let warnLog : List LogLine := load_warnings env filepath
  match env.readFile filepath with
  | .error e =>
      { success := false, log := header ++ warnLog ++ [.errorMsg e],
        writes := [], reads := [filepath] }
  | .ok gdf =>
      if "geometry" ∉ gdf.columns then
        -- line 57 raises AttributeError (no such method), caught on line 77
        { success := false, log := header ++ warnLog ++ [.errorMsg renameColumnsError],
          writes := [], reads := [filepath] }
      else
        let gdf := normalize_crs env.reproject gdf
        match env.writeResult table_name gdf with
        | some e =>
            { success := false, log := header ++ warnLog ++ [.errorMsg e],
              writes := [], reads := [filepath] }
        | none =>
            { success := true,
              log := header ++ warnLog ++ [.loadedRecords gdf.geometry.length],
              writes := [⟨table_name, .replace, gdf.crs, 4326, gdf.geometry.length⟩],
              reads := [filepath] }

/-- The contribution of one processing step of `main` to the run's
observables: the increments of the `loaded` and `failed` counters, the
console lines, the successful writes, and the read attempts. -/
structure Delta where
  loaded : Nat
  failed : Nat
  log : List LogLine
  writes : List WriteEvent
  reads : List String
  deriving Repr, DecidableEq

def Delta.empty : Delta := ⟨0, 0, [], [], []⟩

def Delta.seq (a b : Delta) : Delta :=
  ⟨a.loaded + b.loaded, a.failed + b.failed, a.log ++ b.log,
   a.writes ++ b.writes, a.reads ++ b.reads⟩

/-- Sequential composition of the deltas of a list of steps. -/
def Delta.seqAll (ds : List Delta) : Delta :=
  ds.foldr Delta.seq Delta.empty

/-- The observables of a `load_geographic_file` call, as a `Delta`: the
counter that `main` increments depends on the returned boolean
(lines 113-116, 122-125, 139, 164). -/
def LoadResult.toDelta (r : LoadResult) : Delta :=
  ⟨if r.success then 1 else 0, if r.success then 0 else 1, r.log, r.writes, r.reads⟩

/-- Lines 100-105 of the script: the fixed list of national files,
`(filename, table_name, geoid_field)`. -/
def files_to_load : List (String × String × String) :=
  [("tl_2024_us_state.shp", "tiger_states", "GEOID"),
   ("tl_2024_us_county.shp", "tiger_counties", "GEOID"),
   ("tl_2024_us_cbsa.shp", "tiger_cbsa", "GEOID"),
   ("tl_2024_us_zcta520.shp", "tiger_zcta", "GEOID20")]

/-- `tiger_dir / filename`. -/
def joinPath (dir name : String) : String := dir ++ "/" ++ name

/-- Lines 110-128 of the script: one iteration of the national-file loop.
Prefer the shapefile; if it does not exist, fall back to the same-named
`.geojson`; if neither exists, print a message and count a failure. -/
def processNationalEntry (env : Env) (entry : String × String × String) : Delta :=
  let (filename, table_name, geoid_field) := entry
  let filepath := joinPath env.tigerDir filename
  if env.fileExists filepath then
    (load_geographic_file env filepath table_name geoid_field).toDelta
  else
    let geojson_path := joinPath env.tigerDir (replaceAll filename ".shp" ".geojson")
    if env.fileExists geojson_path then
      let r := load_geographic_file env geojson_path table_name geoid_field
      { r.toDelta with log := .tryGeoJSON (pathName geojson_path) :: r.log }
    else
      ⟨0, 1, [.fileNotFound filename], [], []⟩

/-- Lines 96-128 of the script: the national-file loop, starting from
`loaded = 0`, `failed = 0`. -/
def nationalLoop (env : Env) : Delta :=
  Delta.seqAll (files_to_load.map (processNationalEntry env))

/-- Lines 148-149 of the script, the CRS step of the append loop:
`if gdf.crs and gdf.crs.to_string() != 'EPSG:4326': gdf.to_crs(...)`.
Unlike `normalize_crs`, a dataset with no declared CRS is left as-is. -/
def append_crs_step (reproject : String → String → Geom → Geom)
    (gdf : GeoDataFrame) : GeoDataFrame :=
  match gdf.crs with
  | some c =>
      if c ≠ "EPSG:4326" then
        { gdf with crs := some "EPSG:4326",
                   geometry := gdf.geometry.map (reproject c "EPSG:4326") }
      else gdf
  | none => gdf

/-- Lines 143-162 of the script: one iteration of the append loop over
`place_files[1:]`.  Note the CRS step here (line 148, `append_crs_step`)
differs from `normalize_crs`: a dataset with no declared CRS is left
as-is. -/
def appendPlaceFile (env : Env) (place_file : String) : Delta :=
  let hdr : List LogLine := [.appending (pathName place_file)]
  match env.readFile place_file with
  | .error e => ⟨0, 1, hdr ++ [.appendError e], [], [place_file]⟩
  | .ok gdf =>
      let gdf := append_crs_step env.reproject gdf
      match env.writeResult "tiger_places" gdf with
      | some e => ⟨0, 1, hdr ++ [.appendError e], [], [place_file]⟩
      | none =>
          ⟨1, 0, hdr ++ [.appendedRecords gdf.geometry.length],
           [⟨"tiger_places", .append, gdf.crs, 4326, gdf.geometry.length⟩],
           [place_file]⟩

/-- Lines 130-164 of the script: the places section.  The first matched file
is loaded through `load_geographic_file` (creating `tiger_places`); only if
that returns `True` are the remaining files appended.  If it returns `False`,
`failed` is incremented once and the remaining place files are not touched. -/
def placesSection (env : Env) : Delta :=
  let hdr : List LogLine := [.blank, .text "Loading places (this may take a while)..."]
  match env.placeFiles with
  | [] => ⟨0, 0, hdr, [], []⟩
  | first :: rest =>
      let found : List LogLine := [.foundPlaceFiles (first :: rest).length]
      let r := load_geographic_file env first "tiger_places" "GEOID"
      if r.success then
        let d := Delta.seqAll (rest.map (appendPlaceFile env))
        ⟨1 + d.loaded, d.failed, hdr ++ found ++ r.log ++ d.log,
         r.writes ++ d.writes, r.reads ++ d.reads⟩
      else
        ⟨0, 1, hdr ++ found ++ r.log, r.writes, r.reads⟩

/-- Lines 166-176 of the script: the summary block.  The failed count is
printed only under `if failed > 0`. -/
def summaryLog (loaded failed : Nat) : List LogLine :=
  [.blank, .sep, .text "  Summary", .sep, .summaryLoaded loaded] ++
    (if failed > 0 then [.summaryFailed failed] else []) ++
    [.blank, .text "Next: Run SQL to update GEOID fields and extract names", .blank]

/-- Lines 83-86, 107-108: the banner and section headers printed before any
file is processed. -/
def preludeLog : List LogLine :=
  [.sep, .text "  Load TIGER Shapefiles to Supabase (Python)", .sep, .blank,
   .text "Loading national-level files...", .blank]

/-- Lines 81-176 of the script: `main()`.  The password prompt and engine
construction (lines 89-90) have no observable logic and are not modelled. -/
def mainRun (env : Env) : Delta :=
  let body := Delta.seq (nationalLoop env) (placesSection env)
  { body with log := preludeLog ++ body.log ++ summaryLog body.loaded body.failed }

/-- Effect of one write event on the database, viewed as a map from table
name to record count (`none` = table absent).  `if_exists='replace'` drops
and recreates; `if_exists='append'` adds rows (creating the table if it does
not exist, as `to_sql`/`to_postgis` do). -/
def applyWrite (db : String → Option Nat) (e : WriteEvent) : String → Option Nat :=
  fun t =>
    if t = e.table then
      match e.mode with
      | .replace => some e.count
      | .append => some ((db t).getD 0 + e.count)
    else db t

/-- Record count of table `t` after a run's write events, starting from an
empty database. -/
def tableCount (ws : List WriteEvent) (t : String) : Option Nat :=
  (ws.foldl applyWrite fun _ => none) t

/-- Number of records in an input file: the length of the dataset
`gpd.read_file` would return (0 for an unreadable file). -/
def inputCount (env : Env) (f : String) : Nat :=
  match env.readFile f with
  | .ok gdf => gdf.geometry.length
  | .error _ => 0

/-- Sum of the record counts of all matched place files. -/
def sumPlaceInputCounts (env : Env) : Nat :=
  (env.placeFiles.map (inputCount env)).sum

/-- Whether a log line is the `f"✗ Failed: {failed} file(s)"` summary line. -/
def isSummaryFailed : LogLine → Bool
  | .summaryFailed _ => true
  | _ => false

/-- Whether any printed line is the failed-count summary line. -/
def containsFailedLine (log : List LogLine) : Bool :=
  log.any isSummaryFailed

/-! ### Concrete environments used by witnesses and counterexamples -/

/-- A well-formed dataset: `GEOID` and `geometry` columns, `n` records. -/
def sampleGdf (crs : Option String) (n : Nat) : GeoDataFrame :=
  ⟨crs, ["GEOID", "geometry"], List.range n⟩

/-- An environment exercising every branch: the states shapefile exists (in a
non-WGS84 CRS), the county data exists only as GeoJSON (with no declared
CRS), cbsa and zcta are absent, and two place files match — the first already
in WGS84, the second with no declared CRS. -/
def envW : Env where
  fileExists := fun p => p = "./tl_2024_us_state.shp" ∨ p = "./tl_2024_us_county.geojson"
  readFile := fun p =>
    if p = "./tl_2024_us_state.shp" then .ok (sampleGdf (some "EPSG:4269") 56)
    else if p = "./tl_2024_us_county.geojson" then .ok (sampleGdf none 3)
    else if p = "./tl_2024_01_place.shp" then .ok (sampleGdf (some "EPSG:4326") 2)
    else if p = "./tl_2024_02_place.shp" then .ok (sampleGdf none 5)
    else if p = "./nogeom.shp" then .ok ⟨some "EPSG:4326", ["GEOID", "geom"], [0]⟩
    else .error "read failed"
  writeResult := fun _ _ => none
  reproject := fun _ _ g => g + 100
  placeFiles := ["./tl_2024_01_place.shp", "./tl_2024_02_place.shp"]
  tigerDir := "."

/-- An environment where every file and its companions exist, every read
yields a WGS84 dataset, every write succeeds, and no place files match:
a run with zero failures. -/
def envOk : Env where
  fileExists := fun _ => true
  readFile := fun _ => .ok (sampleGdf (some "EPSG:4326") 10)
  writeResult := fun _ _ => none
  reproject := fun _ _ g => g
  placeFiles := []
  tigerDir := "."

/-- An environment where the first matched place file is unreadable while the
second is perfectly readable; no national file exists. -/
def envC3x : Env where
  fileExists := fun _ => false
  readFile := fun p =>
    if p = "./tl_2024_02_place.shp" then .ok (sampleGdf (some "EPSG:4326") 7)
    else .error "read failed: corrupt shapefile"
  writeResult := fun _ _ => none
  reproject := fun _ _ g => g
  placeFiles := ["./tl_2024_01_place.shp", "./tl_2024_02_place.shp"]
  tigerDir := "."

/-- An environment with two readable place files (3 and 5 records) where the
database write of the 5-record append raises; no national file exists. -/
def envC6x : Env where
  fileExists := fun _ => false
  readFile := fun p =>
    if p = "./tl_2024_01_place.shp" then .ok (sampleGdf (some "EPSG:4326") 3)
    else if p = "./tl_2024_02_place.shp" then .ok (sampleGdf (some "EPSG:4326") 5)
    else .error "read failed"
  writeResult := fun _ gdf => if gdf.geometry.length = 5 then some "database write failed" else none
  reproject := fun _ _ g => g
  placeFiles := ["./tl_2024_01_place.shp", "./tl_2024_02_place.shp"]
  tigerDir := "."

/-! ### Helper lemmas -/

theorem normalize_crs_crs (rp : String → String → Geom → Geom) (gdf : GeoDataFrame) :
    (normalize_crs rp gdf).crs = some "EPSG:4326" := by
  unfold normalize_crs
  split
  · rfl
  next c heq =>
    split
    · rfl
    next hc =>
      simp only [ne_eq, not_not] at hc
      rw [heq, hc]

theorem normalize_crs_length (rp : String → String → Geom → Geom) (gdf : GeoDataFrame) :
    (normalize_crs rp gdf).geometry.length = gdf.geometry.length := by
  unfold normalize_crs
  split
  · rfl
  · split <;> simp

theorem Delta.seqAll_nil : Delta.seqAll [] = Delta.empty := rfl

theorem Delta.seqAll_cons (d : Delta) (ds : List Delta) :
    Delta.seqAll (d :: ds) = d.seq (Delta.seqAll ds) := rfl

theorem Delta.seqAll_eq (ds : List Delta) :
    Delta.seqAll ds =
      ⟨(ds.map Delta.loaded).sum, (ds.map Delta.failed).sum, (ds.map Delta.log).flatten,
       (ds.map Delta.writes).flatten, (ds.map Delta.reads).flatten⟩ := by
  induction ds with
  | nil => rfl
  | cons d ds ih => simp [Delta.seqAll_cons, ih, Delta.seq]

theorem Delta.seqAll_writes_mem (ds : List Delta) (e : WriteEvent) :
    e ∈ (Delta.seqAll ds).writes ↔ ∃ d ∈ ds, e ∈ d.writes := by
  rw [Delta.seqAll_eq]
  simp [List.mem_flatten]

theorem load_geographic_file_reads (env : Env) (fp t g : String) :
    (load_geographic_file env fp t g).reads = [fp] := by
  unfold load_geographic_file
  split
  · rfl
  · dsimp only
    split
    · rfl
    · split <;> rfl

/-- Any write made by `load_geographic_file` is a replace-write of the
CRS-normalized dataset, to the requested table, annotated SRID 4326. -/
theorem load_geographic_file_writes_mem (env : Env) (fp t g : String) :
    ∀ e ∈ (load_geographic_file env fp t g).writes,
      ∃ gdf, env.readFile fp = .ok gdf ∧
        e = ⟨t, .replace, (normalize_crs env.reproject gdf).crs, 4326,
             (normalize_crs env.reproject gdf).geometry.length⟩ := by
  unfold load_geographic_file
  split
  · simp
  next gdf heq =>
    dsimp only
    split
    · simp
    · split
      · simp
      · intro e he
        simp only [List.mem_singleton] at he
        exact ⟨gdf, heq, he⟩

/-- `load_geographic_file` either makes no write, or makes exactly one
replace-write carrying CRS `EPSG:4326` and the source's record count. -/
theorem load_geographic_file_writes_shape (env : Env) (fp t g : String) :
    (load_geographic_file env fp t g).writes = [] ∨
      ∃ gdf, env.readFile fp = .ok gdf ∧
        (load_geographic_file env fp t g).writes
          = [⟨t, .replace, some "EPSG:4326", 4326, gdf.geometry.length⟩] := by
  unfold load_geographic_file
  split
  · exact Or.inl rfl
  next gdf heq =>
    dsimp only
    split
    · exact Or.inl rfl
    · split
      · exact Or.inl rfl
      · exact Or.inr ⟨gdf, heq,
          by rw [normalize_crs_crs, normalize_crs_length]⟩

theorem load_geographic_file_success_iff (env : Env) (fp t g : String) :
    (load_geographic_file env fp t g).success = true ↔
      ∃ gdf, env.readFile fp = .ok gdf ∧ "geometry" ∈ gdf.columns ∧
        env.writeResult t (normalize_crs env.reproject gdf) = none := by
  unfold load_geographic_file
  split
  next e heq =>
    simp only [Bool.false_eq_true, false_iff]
    rintro ⟨gdf2, hr, -, -⟩
    rw [heq] at hr
    cases hr
  next gdf heq =>
    dsimp only
    split
    next hg =>
      simp only [show (false = true) = False from by simp, false_iff]
      rintro ⟨gdf2, hr, hcol, -⟩
      rw [heq] at hr
      cases hr
      exact hg hcol
    next hg =>
      rw [not_not] at hg
      split
      next e hw =>
        simp only [show (false = true) = False from by simp, false_iff]
        rintro ⟨gdf2, hr, -, hwr⟩
        rw [heq] at hr
        cases hr
        rw [hw] at hwr
        cases hwr
      next hw =>
        simp only [true_iff]
        exact ⟨gdf, heq, hg, hw⟩

theorem load_geographic_file_failure_writes (env : Env) (fp t g : String)
    (h : (load_geographic_file env fp t g).success = false) :
    (load_geographic_file env fp t g).writes = [] := by
  rcases load_geographic_file_writes_shape env fp t g with hw | ⟨gdf, hr, hw⟩
  · exact hw
  · exfalso
    revert h hw
    unfold load_geographic_file
    split
    · simp_all
    · dsimp only
      split
      · simp
      · split <;> simp

theorem load_geographic_file_success_writes (env : Env) (fp t g : String)
    (h : (load_geographic_file env fp t g).success = true) :
    ∃ gdf, env.readFile fp = .ok gdf ∧
      (load_geographic_file env fp t g).writes
        = [⟨t, .replace, some "EPSG:4326", 4326, gdf.geometry.length⟩] := by
  rcases load_geographic_file_writes_shape env fp t g with hw | h2
  · exfalso
    revert h hw
    unfold load_geographic_file
    split
    · simp
    · dsimp only
      split
      · simp
      · split <;> simp
  · exact h2

theorem LoadResult.toDelta_counts (r : LoadResult) :
    (r.toDelta.loaded = 1 ∧ r.toDelta.failed = 0) ∨
      (r.toDelta.loaded = 0 ∧ r.toDelta.failed = 1) := by
  unfold LoadResult.toDelta
  by_cases h : r.success <;> simp [h]

theorem processNationalEntry_counts (env : Env) (entry : String × String × String) :
    ((processNationalEntry env entry).loaded = 1 ∧ (processNationalEntry env entry).failed = 0) ∨
      ((processNationalEntry env entry).loaded = 0 ∧ (processNationalEntry env entry).failed = 1) := by
  obtain ⟨filename, table_name, geoid_field⟩ := entry
  unfold processNationalEntry
  dsimp only
  split
  · exact LoadResult.toDelta_counts _
  · split
    · rcases LoadResult.toDelta_counts
        (load_geographic_file env (joinPath env.tigerDir (replaceAll filename ".shp" ".geojson"))
          table_name geoid_field) with h | h
      · exact Or.inl h
      · exact Or.inr h
    · exact Or.inr ⟨rfl, rfl⟩

/-- Any write of one national-loop iteration is a replace-write to the
entry's designated table with CRS `EPSG:4326` and SRID 4326. -/
theorem processNationalEntry_writes_mem (env : Env) (entry : String × String × String) :
    ∀ e ∈ (processNationalEntry env entry).writes,
      e.table = entry.2.1 ∧ e.mode = .replace ∧ e.crs = some "EPSG:4326" ∧ e.srid = 4326 := by
  obtain ⟨filename, table_name, geoid_field⟩ := entry
  unfold processNationalEntry
  dsimp only
  split
  · intro e he
    rcases load_geographic_file_writes_shape env (joinPath env.tigerDir filename)
        table_name geoid_field with hw | ⟨gdf, -, hw⟩
    · rw [show (load_geographic_file env (joinPath env.tigerDir filename)
          table_name geoid_field).toDelta.writes
            = (load_geographic_file env (joinPath env.tigerDir filename)
                table_name geoid_field).writes from rfl, hw] at he
      cases he
    · rw [show (load_geographic_file env (joinPath env.tigerDir filename)
          table_name geoid_field).toDelta.writes
            = (load_geographic_file env (joinPath env.tigerDir filename)
                table_name geoid_field).writes from rfl, hw] at he
      simp only [List.mem_singleton] at he
      subst he
      exact ⟨rfl, rfl, rfl, rfl⟩
  · split
    · intro e he
      rcases load_geographic_file_writes_shape env
          (joinPath env.tigerDir (replaceAll filename ".shp" ".geojson"))
          table_name geoid_field with hw | ⟨gdf, -, hw⟩
      · simp only [LoadResult.toDelta, hw] at he
        cases he
      · simp only [LoadResult.toDelta, hw, List.mem_singleton] at he
        subst he
        exact ⟨rfl, rfl, rfl, rfl⟩
    · intro e he
      cases he

theorem processNationalEntry_writes_shape (env : Env) (entry : String × String × String) :
    (processNationalEntry env entry).writes = [] ∨
      ∃ e, (processNationalEntry env entry).writes = [e] := by
  obtain ⟨filename, table_name, geoid_field⟩ := entry
  unfold processNationalEntry
  dsimp only
  split
  · rcases load_geographic_file_writes_shape env (joinPath env.tigerDir filename)
        table_name geoid_field with hw | ⟨gdf, -, hw⟩
    · exact Or.inl hw
    · exact Or.inr ⟨_, hw⟩
  · split
    · rcases load_geographic_file_writes_shape env
          (joinPath env.tigerDir (replaceAll filename ".shp" ".geojson"))
          table_name geoid_field with hw | ⟨gdf, -, hw⟩
      · exact Or.inl (by simpa [LoadResult.toDelta] using hw)
      · exact Or.inr ⟨_, by simpa [LoadResult.toDelta] using hw⟩
    · exact Or.inl rfl

theorem nationalLoop_writes_mem (env : Env) :
    ∀ e ∈ (nationalLoop env).writes,
      e.mode = .replace ∧ e.crs = some "EPSG:4326" ∧ e.srid = 4326 ∧
        e.table ∈ ["tiger_states", "tiger_counties", "tiger_cbsa", "tiger_zcta"] := by
  intro e he
  rw [nationalLoop, Delta.seqAll_writes_mem] at he
  obtain ⟨d, hd, hed⟩ := he
  simp only [List.mem_map] at hd
  obtain ⟨entry, hentry, rfl⟩ := hd
  obtain ⟨ht, hm, hc, hs⟩ := processNationalEntry_writes_mem env entry e hed
  refine ⟨hm, hc, hs, ?_⟩
  rw [ht]
  simp only [files_to_load, List.mem_cons, List.not_mem_nil, or_false] at hentry
  rcases hentry with rfl | rfl | rfl | rfl <;> simp

theorem nationalLoop_counts (env : Env) :
    (nationalLoop env).loaded + (nationalLoop env).failed = 4 := by
  rw [nationalLoop, Delta.seqAll_eq]
  unfold files_to_load
  simp only [List.map_cons, List.map_nil, List.sum_cons, List.sum_nil]
  have h1 := processNationalEntry_counts env ("tl_2024_us_state.shp", "tiger_states", "GEOID")
  have h2 := processNationalEntry_counts env ("tl_2024_us_county.shp", "tiger_counties", "GEOID")
  have h3 := processNationalEntry_counts env ("tl_2024_us_cbsa.shp", "tiger_cbsa", "GEOID")
  have h4 := processNationalEntry_counts env ("tl_2024_us_zcta520.shp", "tiger_zcta", "GEOID20")
  rcases h1 with ⟨a1, b1⟩ | ⟨a1, b1⟩ <;> rcases h2 with ⟨a2, b2⟩ | ⟨a2, b2⟩ <;>
    rcases h3 with ⟨a3, b3⟩ | ⟨a3, b3⟩ <;> rcases h4 with ⟨a4, b4⟩ | ⟨a4, b4⟩ <;>
    omega

theorem appendPlaceFile_reads (env : Env) (f : String) :
    (appendPlaceFile env f).reads = [f] := by
  unfold appendPlaceFile
  split
  · rfl
  · dsimp only
    split <;> rfl

theorem appendPlaceFile_counts (env : Env) (f : String) :
    ((appendPlaceFile env f).loaded = 1 ∧ (appendPlaceFile env f).failed = 0) ∨
      ((appendPlaceFile env f).loaded = 0 ∧ (appendPlaceFile env f).failed = 1) := by
  unfold appendPlaceFile
  split
  · exact Or.inr ⟨rfl, rfl⟩
  · dsimp only
    split
    · exact Or.inr ⟨rfl, rfl⟩
    · exact Or.inl ⟨rfl, rfl⟩

/-- Any write of the append loop is an append to `tiger_places` with SRID
4326; its CRS is `EPSG:4326` unless the source dataset declared no CRS, in
which case the dataset is written with its CRS still unset. -/
theorem appendPlaceFile_writes_mem (env : Env) (f : String) :
    ∀ e ∈ (appendPlaceFile env f).writes,
      e.table = "tiger_places" ∧ e.mode = .append ∧ e.srid = 4326 ∧
        ∃ gdf, env.readFile f = .ok gdf ∧ e.count = gdf.geometry.length ∧
          (e.crs = some "EPSG:4326" ∨ (e.crs = none ∧ gdf.crs = none)) := by
  unfold appendPlaceFile
  split
  · intro e he
    cases he
  next gdf heq =>
    dsimp only
    unfold append_crs_step
    rcases hc : gdf.crs with _ | c
    · simp only [hc]
      split
      · intro e he
        cases he
      · intro e he
        simp only [List.mem_singleton] at he
        subst he
        exact ⟨rfl, rfl, rfl, gdf, heq, rfl, Or.inr ⟨rfl, hc⟩⟩
    · simp only [hc]
      by_cases h4 : c = "EPSG:4326"
      · rw [if_neg (by simp [h4])]
        split
        · intro e he
          cases he
        · intro e he
          simp only [List.mem_singleton] at he
          subst he
          exact ⟨rfl, rfl, rfl, gdf, heq, rfl, Or.inl (by rw [hc, h4])⟩
      · rw [if_pos h4]
        split
        · intro e he
          cases he
        · intro e he
          simp only [List.mem_singleton] at he
          subst he
          exact ⟨rfl, rfl, rfl, gdf, heq, by simp, Or.inl rfl⟩

theorem appendPlaceFile_error (env : Env) (f e : String) (h : env.readFile f = .error e) :
    appendPlaceFile env f
      = ⟨0, 1, [.appending (pathName f), .appendError e], [], [f]⟩ := by
  unfold appendPlaceFile
  rw [h]
  rfl

theorem appendPlaceFile_ok_writes (env : Env) (f : String)
    (h : (appendPlaceFile env f).failed = 0) :
    (appendPlaceFile env f).writes.map WriteEvent.count = [inputCount env f] := by
  revert h
  unfold appendPlaceFile inputCount
  split
  · intro h
    cases h
  next gdf heq =>
    dsimp only
    unfold append_crs_step
    rcases hc : gdf.crs with _ | c
    · simp only [hc]
      split
      · intro h
        cases h
      · intro _
        rw [heq]
        rfl
    · simp only [hc]
      by_cases h4 : c = "EPSG:4326"
      · rw [if_neg (by simp [h4])]
        split
        · intro h
          cases h
        · intro _
          rw [heq]
          rfl
      · rw [if_pos h4]
        split
        · intro h
          cases h
        · intro _
          rw [heq]
          simp

theorem appendLoop_reads (env : Env) (fs : List String) :
    (Delta.seqAll (fs.map (appendPlaceFile env))).reads = fs := by
  induction fs with
  | nil => rfl
  | cons f fs ih =>
      simp only [List.map_cons, Delta.seqAll_cons, Delta.seq, appendPlaceFile_reads, ih]
      rfl

theorem appendLoop_counts (env : Env) (fs : List String) :
    (Delta.seqAll (fs.map (appendPlaceFile env))).loaded
      + (Delta.seqAll (fs.map (appendPlaceFile env))).failed = fs.length := by
  induction fs with
  | nil => rfl
  | cons f fs ih =>
      simp only [List.map_cons, Delta.seqAll_cons, Delta.seq, List.length_cons]
      rcases appendPlaceFile_counts env f with ⟨a, b⟩ | ⟨a, b⟩ <;> rw [a, b] <;> omega

theorem appendLoop_writes_mem (env : Env) (fs : List String) :
    ∀ e ∈ (Delta.seqAll (fs.map (appendPlaceFile env))).writes,
      e.table = "tiger_places" ∧ e.mode = .append ∧ e.srid = 4326 ∧
        (e.crs = some "EPSG:4326" ∨ e.crs = none) := by
  intro e he
  rw [Delta.seqAll_writes_mem] at he
  obtain ⟨d, hd, hed⟩ := he
  simp only [List.mem_map] at hd
  obtain ⟨f, -, rfl⟩ := hd
  obtain ⟨ht, hm, hs, gdf, -, -, hcrs⟩ := appendPlaceFile_writes_mem env f e hed
  exact ⟨ht, hm, hs, hcrs.imp id And.left⟩

theorem appendLoop_ok_writes (env : Env) (fs : List String)
    (h : ∀ f ∈ fs, (appendPlaceFile env f).failed = 0) :
    (Delta.seqAll (fs.map (appendPlaceFile env))).writes.map WriteEvent.count
      = fs.map (inputCount env) := by
  induction fs with
  | nil => rfl
  | cons f fs ih =>
      simp only [List.map_cons, Delta.seqAll_cons, Delta.seq, List.map_append]
      rw [appendPlaceFile_ok_writes env f (h f (List.mem_cons_self f fs)),
        ih fun f2 hf2 => h f2 (List.mem_cons_of_mem f hf2)]
      rfl

theorem placesSection_empty (env : Env) (hp : env.placeFiles = []) :
    (placesSection env).loaded = 0 ∧ (placesSection env).failed = 0 ∧
      (placesSection env).writes = [] ∧ (placesSection env).reads = [] := by
  unfold placesSection
  rw [hp]
  exact ⟨rfl, rfl, rfl, rfl⟩

theorem placesSection_success (env : Env) (first : String) (rest : List String)
    (hp : env.placeFiles = first :: rest)
    (h : (load_geographic_file env first "tiger_places" "GEOID").success = true) :
    (placesSection env).reads = first :: rest ∧
      (placesSection env).writes
        = (load_geographic_file env first "tiger_places" "GEOID").writes
            ++ (Delta.seqAll (rest.map (appendPlaceFile env))).writes ∧
      (placesSection env).loaded = 1 + (Delta.seqAll (rest.map (appendPlaceFile env))).loaded ∧
      (placesSection env).failed = (Delta.seqAll (rest.map (appendPlaceFile env))).failed := by
  unfold placesSection
  rw [hp]
  simp only [h, if_true]
  refine ⟨?_, by trivial, by trivial, by trivial⟩
  rw [load_geographic_file_reads, appendLoop_reads]
  rfl

theorem placesSection_failure (env : Env) (first : String) (rest : List String)
    (hp : env.placeFiles = first :: rest)
    (h : (load_geographic_file env first "tiger_places" "GEOID").success = false) :
    (placesSection env).reads = [first] ∧ (placesSection env).writes = [] ∧
      (placesSection env).loaded = 0 ∧ (placesSection env).failed = 1 := by
  unfold placesSection
  rw [hp]
  simp only [h, Bool.false_eq_true, if_false]
  exact ⟨load_geographic_file_reads env first "tiger_places" "GEOID",
    load_geographic_file_failure_writes env first "tiger_places" "GEOID" h,
    by trivial, by trivial⟩

theorem mainRun_fields (env : Env) :
    (mainRun env).writes = (nationalLoop env).writes ++ (placesSection env).writes ∧
      (mainRun env).reads = (nationalLoop env).reads ++ (placesSection env).reads ∧
      (mainRun env).loaded = (nationalLoop env).loaded + (placesSection env).loaded ∧
      (mainRun env).failed = (nationalLoop env).failed + (placesSection env).failed ∧
      (mainRun env).log
        = preludeLog ++ ((nationalLoop env).log ++ (placesSection env).log)
            ++ summaryLog ((nationalLoop env).loaded + (placesSection env).loaded)
                ((nationalLoop env).failed + (placesSection env).failed) := by
  exact ⟨rfl, rfl, rfl, rfl, rfl⟩

theorem foldl_applyWrite_other (ws : List WriteEvent) (db : String → Option Nat) (t : String)
    (h : ∀ e ∈ ws, e.table ≠ t) :
    (ws.foldl applyWrite db) t = db t := by
  induction ws generalizing db with
  | nil => rfl
  | cons e ws ih =>
      rw [List.foldl_cons, ih _ fun e2 he2 => h e2 (List.mem_cons_of_mem e he2)]
      unfold applyWrite
      rw [if_neg]
      intro ht
      exact h e (List.mem_cons_self e ws) ht.symm

theorem foldl_applyWrite_appends (ws : List WriteEvent) (t : String)
    (h : ∀ e ∈ ws, e.table = t ∧ e.mode = .append) :
    ∀ (db : String → Option Nat) (a : Nat), db t = some a →
      (ws.foldl applyWrite db) t = some (a + (ws.map WriteEvent.count).sum) := by
  induction ws with
  | nil =>
      intro db a hdb
      simpa using hdb
  | cons e ws ih =>
      intro db a hdb
      obtain ⟨ht, hm⟩ := h e (List.mem_cons_self e ws)
      rw [List.foldl_cons,
        ih (fun e2 he2 => h e2 (List.mem_cons_of_mem e he2)) (applyWrite db e) (a + e.count)
          (by
            unfold applyWrite
            rw [if_pos ht.symm, hm]
            show some ((db t).getD 0 + e.count) = some (a + e.count)
            rw [hdb]
            rfl)]
      simp only [List.map_cons, List.sum_cons, Nat.add_assoc]

theorem containsFailedLine_append (a b : List LogLine) :
    containsFailedLine (a ++ b) = (containsFailedLine a || containsFailedLine b) := by
  unfold containsFailedLine
  exact List.any_append

theorem load_warnings_noFailedLine (env : Env) (fp : String) :
    containsFailedLine (load_warnings env fp) = false := by
  unfold load_warnings containsFailedLine
  split
  · split <;> rfl
  · rfl

theorem load_log_noFailedLine (env : Env) (fp t g : String) :
    containsFailedLine (load_geographic_file env fp t g).log = false := by
  unfold load_geographic_file
  split
  · show containsFailedLine
      ([.loading (load_file_type fp) (pathName fp) t] ++ load_warnings env fp ++ [.errorMsg _])
        = false
    simp only [containsFailedLine_append, load_warnings_noFailedLine]
    rfl
  · dsimp only
    split
    · show containsFailedLine
        ([.loading (load_file_type fp) (pathName fp) t] ++ load_warnings env fp
          ++ [.errorMsg renameColumnsError]) = false
      simp only [containsFailedLine_append, load_warnings_noFailedLine]
      rfl
    · split
      · show containsFailedLine
          ([.loading (load_file_type fp) (pathName fp) t] ++ load_warnings env fp
            ++ [.errorMsg _]) = false
        simp only [containsFailedLine_append, load_warnings_noFailedLine]
        rfl
      · show containsFailedLine
          ([.loading (load_file_type fp) (pathName fp) t] ++ load_warnings env fp
            ++ [.loadedRecords _]) = false
        simp only [containsFailedLine_append, load_warnings_noFailedLine]
        rfl

/-- A read error is caught: the function returns `False` and prints the
error message. -/
theorem load_geographic_file_read_error (env : Env) (fp t g e : String)
    (h : env.readFile fp = .error e) :
    (load_geographic_file env fp t g).success = false ∧
      .errorMsg e ∈ (load_geographic_file env fp t g).log := by
  unfold load_geographic_file
  rw [h]
  exact ⟨rfl, by simp⟩

/-- A write error (`to_postgis` raising on line 66) is caught: the function
returns `False`, prints the error message, records no write, and the
caller's counter delta is exactly one failure and no success. -/
theorem load_geographic_file_write_error (env : Env) (fp t g : String) (gdf : GeoDataFrame)
    (e : String) (hr : env.readFile fp = .ok gdf) (hcol : "geometry" ∈ gdf.columns)
    (hw : env.writeResult t (normalize_crs env.reproject gdf) = some e) :
    (load_geographic_file env fp t g).success = false ∧
      .errorMsg e ∈ (load_geographic_file env fp t g).log ∧
      (load_geographic_file env fp t g).writes = [] ∧
      (load_geographic_file env fp t g).toDelta.failed = 1 ∧
      (load_geographic_file env fp t g).toDelta.loaded = 0 := by
  have hmain : (load_geographic_file env fp t g).success = false ∧
      .errorMsg e ∈ (load_geographic_file env fp t g).log ∧
      (load_geographic_file env fp t g).writes = [] := by
    unfold load_geographic_file
    simp only [hr]
    rw [if_neg (not_not_intro hcol), hw]
    exact ⟨rfl, by simp, rfl⟩
  refine ⟨hmain.1, hmain.2.1, hmain.2.2, ?_, ?_⟩ <;>
    simp [LoadResult.toDelta, hmain.1]

/-- A write error in the append loop (`to_postgis` raising on line 151) is
caught: the iteration prints the appending line and the error message,
counts exactly one failure and no success, and records no write. -/
theorem appendPlaceFile_write_error (env : Env) (f : String) (gdf : GeoDataFrame) (e : String)
    (hr : env.readFile f = .ok gdf)
    (hw : env.writeResult "tiger_places" (append_crs_step env.reproject gdf) = some e) :
    appendPlaceFile env f
      = ⟨0, 1, [.appending (pathName f), .appendError e], [], [f]⟩ := by
  unfold appendPlaceFile
  rw [hr]
  dsimp only
  rw [hw]
  rfl

/-- The return value of `load_geographic_file` does not depend on the
filesystem-existence oracle (only the companion-file warning does). -/
theorem load_geographic_file_success_congr (env env2 : Env) (fp t g : String)
    (hr : env2.readFile = env.readFile) (hw : env2.writeResult = env.writeResult)
    (hrp : env2.reproject = env.reproject) :
    (load_geographic_file env2 fp t g).success = (load_geographic_file env fp t g).success := by
  have h1 := load_geographic_file_success_iff env fp t g
  have h2 := load_geographic_file_success_iff env2 fp t g
  rw [hr, hw, hrp] at h2
  exact Bool.eq_iff_iff.mpr (h2.trans h1.symm)

/-- The log of `load_geographic_file` is the loading announcement, then the
companion warnings, then one outcome line. -/
theorem load_geographic_file_log_shape (env : Env) (fp t g : String) :
    ∃ last, (load_geographic_file env fp t g).log
      = [.loading (load_file_type fp) (pathName fp) t] ++ load_warnings env fp ++ [last] := by
  unfold load_geographic_file
  split
  · exact ⟨_, rfl⟩
  · dsimp only
    split
    · exact ⟨_, rfl⟩
    · split
      · exact ⟨_, rfl⟩
      · exact ⟨_, rfl⟩

/-- Structure of the places-section writes: nothing, or one replace-create
of `tiger_places` in WGS84 followed by appends to `tiger_places`. -/
theorem placesSection_writes_structure (env : Env) :
    (placesSection env).writes = [] ∨
      ∃ e es, (placesSection env).writes = e :: es ∧
        e.mode = .replace ∧ e.table = "tiger_places" ∧ e.crs = some "EPSG:4326" ∧
        e.srid = 4326 ∧
        ∀ e2 ∈ es, e2.table = "tiger_places" ∧ e2.mode = .append ∧ e2.srid = 4326 ∧
          (e2.crs = some "EPSG:4326" ∨ e2.crs = none) := by
  unfold placesSection
  split
  · exact Or.inl rfl
  next first rest _ =>
    dsimp only
    split
    next hs =>
      obtain ⟨gdf, -, hlw⟩ :=
        load_geographic_file_success_writes env first "tiger_places" "GEOID" hs
      refine Or.inr ⟨⟨"tiger_places", .replace, some "EPSG:4326", 4326, gdf.geometry.length⟩,
        (Delta.seqAll (rest.map (appendPlaceFile env))).writes, ?_, rfl, rfl, rfl, rfl, ?_⟩
      · show (load_geographic_file env first "tiger_places" "GEOID").writes
            ++ (Delta.seqAll (rest.map (appendPlaceFile env))).writes = _
        rw [hlw]
        rfl
      · intro e2 he2
        exact appendLoop_writes_mem env rest e2 he2
    next hs =>
      refine Or.inl ?_
      show (load_geographic_file env first "tiger_places" "GEOID").writes = []
      exact load_geographic_file_failure_writes env first "tiger_places" "GEOID"
        (Bool.not_eq_true _ ▸ eq_false_of_ne_true hs)

/-- Every write of the places section targets `tiger_places` with SRID 4326;
replace-writes carry WGS84, append-writes carry WGS84 or no CRS. -/
theorem placesSection_writes_mem (env : Env) :
    ∀ e ∈ (placesSection env).writes,
      e.table = "tiger_places" ∧ e.srid = 4326 ∧
        (e.mode = .replace → e.crs = some "EPSG:4326") ∧
        (e.crs = some "EPSG:4326" ∨ (e.mode = .append ∧ e.crs = none)) := by
  intro e he
  rcases placesSection_writes_structure env with hw | ⟨e0, es, hw, hm, ht, hc, hs, hes⟩
  · rw [hw] at he
    cases he
  · rw [hw] at he
    rcases List.mem_cons.mp he with rfl | he2
    · exact ⟨ht, hs, fun _ => hc, Or.inl hc⟩
    · obtain ⟨ht2, hm2, hs2, hc2⟩ := hes e he2
      refine ⟨ht2, hs2, fun hrep => ?_, ?_⟩
      · rw [hm2] at hrep
        cases hrep
      · rcases hc2 with h | h
        · exact Or.inl h
        · exact Or.inr ⟨hm2, h⟩

/-- No two national-loop writes target the same table. -/
theorem nationalLoop_writes_pairwise (env : Env) :
    List.Pairwise (fun a b : WriteEvent => a.table ≠ b.table) (nationalLoop env).writes := by
  have m1 := processNationalEntry_writes_mem env ("tl_2024_us_state.shp", "tiger_states", "GEOID")
  have m2 := processNationalEntry_writes_mem env
    ("tl_2024_us_county.shp", "tiger_counties", "GEOID")
  have m3 := processNationalEntry_writes_mem env ("tl_2024_us_cbsa.shp", "tiger_cbsa", "GEOID")
  have m4 := processNationalEntry_writes_mem env
    ("tl_2024_us_zcta520.shp", "tiger_zcta", "GEOID20")
  have s1 := processNationalEntry_writes_shape env ("tl_2024_us_state.shp", "tiger_states", "GEOID")
  have s2 := processNationalEntry_writes_shape env
    ("tl_2024_us_county.shp", "tiger_counties", "GEOID")
  have s3 := processNationalEntry_writes_shape env ("tl_2024_us_cbsa.shp", "tiger_cbsa", "GEOID")
  have s4 := processNationalEntry_writes_shape env
    ("tl_2024_us_zcta520.shp", "tiger_zcta", "GEOID20")
  rw [nationalLoop, Delta.seqAll_eq]
  simp only [files_to_load, List.map_cons, List.map_nil, List.flatten_cons, List.flatten_nil,
    List.append_nil]
  clear s1 s2 s3 s4
  have pw : ∀ (entry : String × String × String),
      List.Pairwise (fun a b : WriteEvent => a.table ≠ b.table)
        (processNationalEntry env entry).writes := by
    intro entry
    rcases processNationalEntry_writes_shape env entry with h2 | ⟨e, h2⟩ <;> rw [h2] <;> simp
  rw [List.pairwise_append]
  refine ⟨pw _, ?_, ?_⟩
  · rw [List.pairwise_append]
    refine ⟨pw _, ?_, ?_⟩
    · rw [List.pairwise_append]
      refine ⟨pw _, pw _, ?_⟩
      intro a ha b hb
      show a.table ≠ b.table
      rw [(m3 a ha).1, (m4 b hb).1]
      decide
    · intro a ha b hb
      show a.table ≠ b.table
      rcases List.mem_append.mp hb with hb | hb
      · rw [(m2 a ha).1, (m3 b hb).1]
        decide
      · rw [(m2 a ha).1, (m4 b hb).1]
        decide
  · intro a ha b hb
    show a.table ≠ b.table
    rcases List.mem_append.mp hb with hb | hb
    · rw [(m1 a ha).1, (m2 b hb).1]
      decide
    rcases List.mem_append.mp hb with hb | hb
    · rw [(m1 a ha).1, (m3 b hb).1]
      decide
    · rw [(m1 a ha).1, (m4 b hb).1]
      decide


theorem processNationalEntry_log_noFailedLine (env : Env) (entry : String × String × String) :
    containsFailedLine (processNationalEntry env entry).log = false := by
  obtain ⟨filename, table_name, geoid_field⟩ := entry
  unfold processNationalEntry
  dsimp only
  split
  · exact load_log_noFailedLine env _ table_name geoid_field
  · split
    · show containsFailedLine (.tryGeoJSON _ :: (load_geographic_file env _ _ _).log) = false
      simp only [containsFailedLine, List.any_cons, Bool.or_eq_false_iff]
      exact ⟨rfl, load_log_noFailedLine env _ table_name geoid_field⟩
    · rfl

theorem appendPlaceFile_log_noFailedLine (env : Env) (f : String) :
    containsFailedLine (appendPlaceFile env f).log = false := by
  unfold appendPlaceFile
  split
  · rfl
  · dsimp only
    split <;> rfl

theorem seqAll_log_noFailedLine (ds : List Delta)
    (h : ∀ d ∈ ds, containsFailedLine d.log = false) :
    containsFailedLine (Delta.seqAll ds).log = false := by
  induction ds with
  | nil => rfl
  | cons d ds ih =>
      rw [Delta.seqAll_cons]
      show containsFailedLine (d.log ++ (Delta.seqAll ds).log) = false
      rw [containsFailedLine_append, h d (List.mem_cons_self d ds),
        ih fun d2 hd2 => h d2 (List.mem_cons_of_mem d hd2)]
      rfl

theorem nationalLoop_log_noFailedLine (env : Env) :
    containsFailedLine (nationalLoop env).log = false := by
  refine seqAll_log_noFailedLine _ fun d hd => ?_
  simp only [List.mem_map] at hd
  obtain ⟨entry, -, rfl⟩ := hd
  exact processNationalEntry_log_noFailedLine env entry

theorem placesSection_log_noFailedLine (env : Env) :
    containsFailedLine (placesSection env).log = false := by
  unfold placesSection
  split
  · rfl
  next first rest _ =>
    dsimp only
    have hload := load_log_noFailedLine env first "tiger_places" "GEOID"
    have happ : containsFailedLine (Delta.seqAll (rest.map (appendPlaceFile env))).log
        = false := by
      refine seqAll_log_noFailedLine _ fun d hd => ?_
      simp only [List.mem_map] at hd
      obtain ⟨f, -, rfl⟩ := hd
      exact appendPlaceFile_log_noFailedLine env f
    split
    · show containsFailedLine
        ([.blank, .text "Loading places (this may take a while)..."]
          ++ [.foundPlaceFiles (first :: rest).length]
          ++ (load_geographic_file env first "tiger_places" "GEOID").log
          ++ (Delta.seqAll (rest.map (appendPlaceFile env))).log) = false
      simp only [containsFailedLine_append, hload, happ]
      rfl
    · show containsFailedLine
        ([.blank, .text "Loading places (this may take a while)..."]
          ++ [.foundPlaceFiles (first :: rest).length]
          ++ (load_geographic_file env first "tiger_places" "GEOID").log) = false
      simp only [containsFailedLine_append, hload]
      rfl

theorem summaryLoaded_mem_summaryLog (l f : Nat) :
    LogLine.summaryLoaded l ∈ summaryLog l f := by
  unfold summaryLog
  simp

theorem summaryFailed_mem_summaryLog (l f : Nat) (h : f > 0) :
    LogLine.summaryFailed f ∈ summaryLog l f := by
  unfold summaryLog
  rw [if_pos h]
  simp

theorem summaryLog_zero_noFailedLine (l : Nat) :
    containsFailedLine (summaryLog l 0) = false := rfl

theorem preludeLog_noFailedLine : containsFailedLine preludeLog = false := rfl

/-! ### The claims -/

/-- C1: for every file processed by `load_geographic_file`, the CRS
normalization step (`normalize_crs`, lines 59-63) follows the three-way
policy: no declared CRS ⇒ the dataset is tagged WGS84 with its geometries
untouched; a declared CRS differing from `EPSG:4326` ⇒ the geometries are
reprojected to WGS84; a declared CRS already equal to `EPSG:4326` ⇒ the
dataset is returned unchanged.  The final conjunct ties the step to
`load_geographic_file`: every write it performs carries exactly the CRS and
record count of the normalized dataset. -/
theorem C1_crs_normalization_three_way (rp : String → String → Geom → Geom)
    (gdf : GeoDataFrame) :
    (gdf.crs = none →
        normalize_crs rp gdf = { gdf with crs := some "EPSG:4326" }) ∧
    (∀ c, gdf.crs = some c → c ≠ "EPSG:4326" →
        normalize_crs rp gdf
          = { gdf with crs := some "EPSG:4326",
                       geometry := gdf.geometry.map (rp c "EPSG:4326") }) ∧
    (gdf.crs = some "EPSG:4326" → normalize_crs rp gdf = gdf) ∧
    (∀ (env : Env) (fp t g : String), ∀ e ∈ (load_geographic_file env fp t g).writes,
        ∃ g0, env.readFile fp = .ok g0 ∧
          e.crs = (normalize_crs env.reproject g0).crs ∧
          e.count = (normalize_crs env.reproject g0).geometry.length) := by
  refine ⟨?_, ?_, ?_, ?_⟩
  · intro h
    unfold normalize_crs
    rw [h]
  · intro c hc hne
    unfold normalize_crs
    rw [hc]
    exact if_pos hne
  · intro h
    unfold normalize_crs
    rw [h]
    exact if_neg (by simp)
  · intro env fp t g e he
    obtain ⟨g0, hr, he2⟩ := load_geographic_file_writes_mem env fp t g e he
    exact ⟨g0, hr, by rw [he2], by rw [he2]⟩

/-- Witness for C1 at concrete datasets: one with no CRS, one in a foreign
CRS, one already in WGS84. -/
theorem C1_witness :
    normalize_crs (fun _ _ g => g + 1) ⟨none, ["geometry"], [7]⟩
        = ⟨some "EPSG:4326", ["geometry"], [7]⟩ ∧
    normalize_crs (fun _ _ g => g + 1) ⟨some "EPSG:3857", ["geometry"], [7]⟩
        = ⟨some "EPSG:4326", ["geometry"], [8]⟩ ∧
    normalize_crs (fun _ _ g => g + 1) ⟨some "EPSG:4326", ["geometry"], [7]⟩
        = ⟨some "EPSG:4326", ["geometry"], [7]⟩ := by
  refine ⟨(C1_crs_normalization_three_way _ _).1 rfl, ?_,
    (C1_crs_normalization_three_way _ _).2.2.1 rfl⟩
  have h := (C1_crs_normalization_three_way (fun _ _ g => g + 1)
    ⟨some "EPSG:3857", ["geometry"], [7]⟩).2.1 "EPSG:3857" rfl (by decide)
  rw [h]
  rfl

/-- C2 counterexample: in the run over `envW`, the second place file has no
declared CRS and is appended with its CRS still unset — a dataset is written
whose geometry column does not carry `EPSG:4326` at the moment of the
write. -/
theorem C2_counterexample :
    (⟨"tiger_places", .append, none, 4326, 5⟩ : WriteEvent) ∈ (mainRun envW).writes ∧
      envW.readFile "./tl_2024_02_place.shp"
        = .ok ⟨none, ["GEOID", "geometry"], [0, 1, 2, 3, 4]⟩ ∧
      (none : Option String) ≠ some "EPSG:4326" := by
  exact ⟨by decide, rfl, by simp⟩

/-- C2 amended: every write carries the SRID-4326 annotation, every
replace-write carries CRS `EPSG:4326`, and every write carries CRS
`EPSG:4326` except an append-write of a source with no declared CRS, which
is written with its CRS unset. -/
theorem C2_amended_write_crs (env : Env) :
    ∀ e ∈ (mainRun env).writes,
      e.srid = 4326 ∧ (e.mode = .replace → e.crs = some "EPSG:4326") ∧
        (e.crs = some "EPSG:4326" ∨ (e.mode = .append ∧ e.crs = none)) := by
  intro e he
  rw [(mainRun_fields env).1, List.mem_append] at he
  rcases he with he | he
  · obtain ⟨hm, hc, hs, -⟩ := nationalLoop_writes_mem env e he
    exact ⟨hs, fun _ => hc, Or.inl hc⟩
  · obtain ⟨-, hs, hrep, hc⟩ := placesSection_writes_mem env e he
    exact ⟨hs, hrep, hc⟩

/-- Witness for C2 amended: the first write of the `envW` run. -/
theorem C2_witness :
    (⟨"tiger_states", .replace, some "EPSG:4326", 4326, 56⟩ : WriteEvent).srid = 4326 ∧
      ((⟨"tiger_states", .replace, some "EPSG:4326", 4326, 56⟩ : WriteEvent).mode = .replace →
        (⟨"tiger_states", .replace, some "EPSG:4326", 4326, 56⟩ : WriteEvent).crs
          = some "EPSG:4326") ∧
      ((⟨"tiger_states", .replace, some "EPSG:4326", 4326, 56⟩ : WriteEvent).crs
          = some "EPSG:4326" ∨
        ((⟨"tiger_states", .replace, some "EPSG:4326", 4326, 56⟩ : WriteEvent).mode = .append ∧
          (⟨"tiger_states", .replace, some "EPSG:4326", 4326, 56⟩ : WriteEvent).crs = none)) :=
  C2_amended_write_crs envW ⟨"tiger_states", .replace, some "EPSG:4326", 4326, 56⟩ (by decide)

/-- C3 counterexample: in the run over `envC3x` the first matched place file
is unreadable; its error is caught and counted, but the second place file —
which is itself perfectly readable — is never attempted: the run's only read
attempt is the first place file. -/
theorem C3_counterexample :
    (mainRun envC3x).reads = ["./tl_2024_01_place.shp"] ∧
      envC3x.readFile "./tl_2024_02_place.shp"
        = .ok ⟨some "EPSG:4326", ["GEOID", "geometry"], [0, 1, 2, 3, 4, 5, 6]⟩ ∧
      (mainRun envC3x).failed = 5 ∧ (mainRun envC3x).loaded = 0 := by
  exact ⟨by decide, rfl, by decide, by decide⟩

/-- C3 amended: per-file errors — a raising read (`gpd.read_file`) as well
as a raising database write (`to_postgis`), in `load_geographic_file` and in
the append loop alike — are caught, a message is printed, and exactly one
failure (and no success) is counted; the run is not aborted and every later
national entry and every later append is still attempted — EXCEPT that a
failure on the first places file skips all remaining place files (they are
neither attempted nor counted). -/
theorem C3_amended_failure_isolation (env : Env) :
    (∀ fp t g e, env.readFile fp = .error e →
        (load_geographic_file env fp t g).success = false ∧
          .errorMsg e ∈ (load_geographic_file env fp t g).log) ∧
    (∀ fp t g gdf e, env.readFile fp = .ok gdf → "geometry" ∈ gdf.columns →
        env.writeResult t (normalize_crs env.reproject gdf) = some e →
        (load_geographic_file env fp t g).success = false ∧
          .errorMsg e ∈ (load_geographic_file env fp t g).log ∧
          (load_geographic_file env fp t g).writes = [] ∧
          (load_geographic_file env fp t g).toDelta.failed = 1 ∧
          (load_geographic_file env fp t g).toDelta.loaded = 0) ∧
    (∀ entry ∈ files_to_load,
        (processNationalEntry env entry).loaded + (processNationalEntry env entry).failed
          = 1) ∧
    (∀ f e, env.readFile f = .error e →
        appendPlaceFile env f
          = ⟨0, 1, [.appending (pathName f), .appendError e], [], [f]⟩) ∧
    (∀ f gdf e, env.readFile f = .ok gdf →
        env.writeResult "tiger_places" (append_crs_step env.reproject gdf) = some e →
        appendPlaceFile env f
          = ⟨0, 1, [.appending (pathName f), .appendError e], [], [f]⟩) ∧
    (∀ first rest, env.placeFiles = first :: rest →
        ((load_geographic_file env first "tiger_places" "GEOID").success = true →
            (placesSection env).reads = first :: rest) ∧
        ((load_geographic_file env first "tiger_places" "GEOID").success = false →
            (placesSection env).reads = [first] ∧ (placesSection env).failed = 1)) := by
  refine ⟨?_, ?_, ?_, ?_, ?_, ?_⟩
  · intro fp t g e h
    exact load_geographic_file_read_error env fp t g e h
  · intro fp t g gdf e hr hcol hw
    exact load_geographic_file_write_error env fp t g gdf e hr hcol hw
  · intro entry _
    rcases processNationalEntry_counts env entry with ⟨a, b⟩ | ⟨a, b⟩ <;> rw [a, b]
  · intro f e h
    exact appendPlaceFile_error env f e h
  · intro f gdf e hr hw
    exact appendPlaceFile_write_error env f gdf e hr hw
  · intro first rest hp
    constructor
    · intro hs
      exact (placesSection_success env first rest hp hs).1
    · intro hs
      obtain ⟨h1, -, -, h2⟩ := placesSection_failure env first rest hp hs
      exact ⟨h1, h2⟩

/-- Witness for C3 amended: the unreadable first place file of `envC3x` is
caught and the places section counts exactly one failure with only that one
read attempt; and in `envC6x` the raising database write of the 5-record
place file is caught, printed and counted as exactly one failure, both in
the append loop and through `load_geographic_file`. -/
theorem C3_witness :
    ((placesSection envC3x).reads = ["./tl_2024_01_place.shp"] ∧
      (placesSection envC3x).failed = 1) ∧
    appendPlaceFile envC6x "./tl_2024_02_place.shp"
      = ⟨0, 1, [.appending (pathName "./tl_2024_02_place.shp"),
          .appendError "database write failed"], [], ["./tl_2024_02_place.shp"]⟩ ∧
    (load_geographic_file envC6x "./tl_2024_02_place.shp" "tiger_places" "GEOID").toDelta.failed
      = 1 :=
  ⟨((C3_amended_failure_isolation envC3x).2.2.2.2.2 "./tl_2024_01_place.shp"
      ["./tl_2024_02_place.shp"] rfl).2 (by decide),
    (C3_amended_failure_isolation envC6x).2.2.2.2.1 "./tl_2024_02_place.shp"
      (sampleGdf (some "EPSG:4326") 5) "database write failed" rfl (by decide),
    ((C3_amended_failure_isolation envC6x).2.1 "./tl_2024_02_place.shp" "tiger_places" "GEOID"
      (sampleGdf (some "EPSG:4326") 5) "database write failed" rfl (by decide)
      (by decide)).2.2.2.1⟩

/-- C4: for a national dataset entry, if the shapefile exists it is the file
read (whether or not a GeoJSON counterpart exists); if not, but the
same-named `.geojson` exists, that file is read instead; if neither exists
the entry contributes exactly one failure and nothing else, and the loop
still accounts for all four entries. -/
theorem C4_file_resolution (env : Env) (filename table g : String) :
    (env.fileExists (joinPath env.tigerDir filename) = true →
        (processNationalEntry env (filename, table, g)).reads
          = [joinPath env.tigerDir filename]) ∧
    (env.fileExists (joinPath env.tigerDir filename) = false →
        env.fileExists (joinPath env.tigerDir (replaceAll filename ".shp" ".geojson")) = true →
        (processNationalEntry env (filename, table, g)).reads
          = [joinPath env.tigerDir (replaceAll filename ".shp" ".geojson")]) ∧
    (env.fileExists (joinPath env.tigerDir filename) = false →
        env.fileExists (joinPath env.tigerDir (replaceAll filename ".shp" ".geojson")) = false →
        processNationalEntry env (filename, table, g)
          = ⟨0, 1, [.fileNotFound filename], [], []⟩) ∧
    (nationalLoop env).loaded + (nationalLoop env).failed = 4 := by
  refine ⟨?_, ?_, ?_, nationalLoop_counts env⟩
  · intro h
    unfold processNationalEntry
    dsimp only
    rw [if_pos h]
    exact load_geographic_file_reads env _ table g
  · intro h h2
    unfold processNationalEntry
    dsimp only
    rw [if_neg (by simp [h]), if_pos h2]
    show (load_geographic_file env _ table g).reads = _
    exact load_geographic_file_reads env _ table g
  · intro h h2
    unfold processNationalEntry
    dsimp only
    rw [if_neg (by simp [h]), if_neg (by simp [h2])]

/-- Witness for C4: in `envW` the states shapefile exists and is the file
read; the county entry falls back to GeoJSON; the cbsa entry has neither
file and counts one failure. -/
theorem C4_witness :
    (processNationalEntry envW ("tl_2024_us_state.shp", "tiger_states", "GEOID")).reads
        = ["./tl_2024_us_state.shp"] ∧
      (processNationalEntry envW ("tl_2024_us_county.shp", "tiger_counties", "GEOID")).reads
        = ["./tl_2024_us_county.geojson"] ∧
      processNationalEntry envW ("tl_2024_us_cbsa.shp", "tiger_cbsa", "GEOID")
        = ⟨0, 1, [.fileNotFound "tl_2024_us_cbsa.shp"], [], []⟩ :=
  ⟨(C4_file_resolution envW "tl_2024_us_state.shp" "tiger_states" "GEOID").1 (by decide),
    (C4_file_resolution envW "tl_2024_us_county.shp" "tiger_counties" "GEOID").2.1
      (by decide) (by decide),
    (C4_file_resolution envW "tl_2024_us_cbsa.shp" "tiger_cbsa" "GEOID").2.2.1
      (by decide) (by decide)⟩

/-- C5: the run's writes are the national writes followed by the places
writes; national writes are all replace-writes, no two of them target the
same table, and none targets `tiger_places`; places writes all target
`tiger_places`, the first (if any) is a replace-write and all subsequent
ones are appends.  Hence the first write to each table uses replace-create
semantics and subsequent writes to the same table — possible only for
`tiger_places` — use append semantics. -/
theorem C5_write_modes (env : Env) :
    (mainRun env).writes = (nationalLoop env).writes ++ (placesSection env).writes ∧
      (∀ e ∈ (nationalLoop env).writes, e.mode = .replace ∧ e.table ≠ "tiger_places") ∧
      List.Pairwise (fun a b : WriteEvent => a.table ≠ b.table) (nationalLoop env).writes ∧
      (∀ e ∈ (placesSection env).writes, e.table = "tiger_places") ∧
      (∀ e, (placesSection env).writes.head? = some e → e.mode = .replace) ∧
      (∀ e ∈ (placesSection env).writes.tail, e.mode = .append) := by
  refine ⟨(mainRun_fields env).1, ?_, nationalLoop_writes_pairwise env, ?_, ?_, ?_⟩
  · intro e he
    obtain ⟨hm, -, -, ht⟩ := nationalLoop_writes_mem env e he
    refine ⟨hm, ?_⟩
    simp only [List.mem_cons, List.not_mem_nil, or_false] at ht
    rcases ht with h | h | h | h <;> rw [h] <;> decide
  · intro e he
    exact (placesSection_writes_mem env e he).1
  · intro e he
    rcases placesSection_writes_structure env with hw | ⟨e0, es, hw, hm, -⟩
    · rw [hw] at he
      cases he
    · rw [hw] at he
      simp only [List.head?_cons, Option.some.injEq] at he
      rw [← he]
      exact hm
  · intro e he
    rcases placesSection_writes_structure env with hw | ⟨e0, es, hw, -, -, -, -, hes⟩
    · rw [hw] at he
      cases he
    · rw [hw] at he
      exact (hes e he).2.1

/-- Witness for C5: concrete instances in the `envW` run — a national write
is a replace-write not targeting `tiger_places`, and the second places write
is an append. -/
theorem C5_witness :
    ((⟨"tiger_states", .replace, some "EPSG:4326", 4326, 56⟩ : WriteEvent).mode = .replace ∧
      (⟨"tiger_states", .replace, some "EPSG:4326", 4326, 56⟩ : WriteEvent).table
        ≠ "tiger_places") ∧
    (⟨"tiger_places", .append, none, 4326, 5⟩ : WriteEvent).mode = .append :=
  ⟨(C5_write_modes envW).2.1 ⟨"tiger_states", .replace, some "EPSG:4326", 4326, 56⟩ (by decide),
    (C5_write_modes envW).2.2.2.2.2 ⟨"tiger_places", .append, none, 4326, 5⟩ (by decide)⟩

/-- C6 counterexample: in the run over `envC6x` both matched place files are
readable (3 and 5 records) but the append of the second raises in the
database write; the resulting `tiger_places` table holds 3 records, not the
sum 8 of the matched inputs. -/
theorem C6_counterexample :
    tableCount (mainRun envC6x).writes "tiger_places" = some 3 ∧
      sumPlaceInputCounts envC6x = 8 ∧
      tableCount (mainRun envC6x).writes "tiger_places"
        ≠ some (sumPlaceInputCounts envC6x) := by
  exact ⟨by decide, by decide, by decide⟩

/-- C6 amended: in a run where at least one place file matched, the first
loads successfully and every remaining append succeeds, the `tiger_places`
table holds exactly the sum of the record counts of all matched files. -/
theorem C6_amended_places_count (env : Env) (first : String) (rest : List String)
    (hp : env.placeFiles = first :: rest)
    (h1 : (load_geographic_file env first "tiger_places" "GEOID").success = true)
    (h2 : ∀ f ∈ rest, (appendPlaceFile env f).failed = 0) :
    tableCount (mainRun env).writes "tiger_places" = some (sumPlaceInputCounts env) := by
  obtain ⟨-, hw, -, -⟩ := placesSection_success env first rest hp h1
  obtain ⟨gdf, hread, hlw⟩ :=
    load_geographic_file_success_writes env first "tiger_places" "GEOID" h1
  have happ : ∀ e ∈ (Delta.seqAll (rest.map (appendPlaceFile env))).writes,
      e.table = "tiger_places" ∧ e.mode = .append := by
    intro e he
    obtain ⟨ht, hm, -, -⟩ := appendLoop_writes_mem env rest e he
    exact ⟨ht, hm⟩
  unfold tableCount
  rw [(mainRun_fields env).1, hw, hlw, ← List.append_assoc, List.foldl_append]
  have hdb1 : (List.foldl applyWrite (fun _ => none)
      ((nationalLoop env).writes
        ++ [⟨"tiger_places", .replace, some "EPSG:4326", 4326, gdf.geometry.length⟩]))
        "tiger_places" = some gdf.geometry.length := by
    rw [List.foldl_append]
    show applyWrite (List.foldl applyWrite (fun _ => none) (nationalLoop env).writes)
        ⟨"tiger_places", .replace, some "EPSG:4326", 4326, gdf.geometry.length⟩ "tiger_places"
      = some gdf.geometry.length
    unfold applyWrite
    rw [if_pos rfl]
  rw [foldl_applyWrite_appends _ _ happ _ _ hdb1, appendLoop_ok_writes env rest h2]
  unfold sumPlaceInputCounts
  rw [hp]
  simp only [List.map_cons, List.sum_cons]
  have hc : inputCount env first = gdf.geometry.length := by
    unfold inputCount
    rw [hread]
  rw [hc]

/-- Witness for C6 amended: the fully successful places run of `envW`
(2 + 5 records). -/
theorem C6_witness :
    tableCount (mainRun envW).writes "tiger_places" = some (sumPlaceInputCounts envW) :=
  C6_amended_places_count envW "./tl_2024_01_place.shp" ["./tl_2024_02_place.shp"] rfl
    (by decide) (by decide)

/-- C7: for a `.shp` input with missing companion files, the loading header
is followed immediately by the two warning lines naming the missing
components, before the single outcome line of the read attempt; the read is
still attempted (`reads = [fp]`); and the return value is unchanged under
any change of the filesystem-existence oracle, so missing companions alone
never cause a skipped read or a failure return. -/
theorem C7_shapefile_warning (env : Env) (fp t g : String)
    (hext : toLowerStr (pathSuffix fp) = ".shp")
    (hmiss : missing_components env fp ≠ []) :
    (∃ last, (load_geographic_file env fp t g).log
        = [.loading (load_file_type fp) (pathName fp) t,
           .warnMissing (missing_components env fp), .warnMissingHelp, last]) ∧
      (load_geographic_file env fp t g).reads = [fp] ∧
      (∀ env2 : Env, env2.readFile = env.readFile → env2.writeResult = env.writeResult →
          env2.reproject = env.reproject →
          (load_geographic_file env2 fp t g).success
            = (load_geographic_file env fp t g).success) := by
  have hw : load_warnings env fp
      = [.warnMissing (missing_components env fp), .warnMissingHelp] := by
    unfold load_warnings
    rw [if_pos hext, if_pos hmiss]
  refine ⟨?_, load_geographic_file_reads env fp t g, ?_⟩
  · obtain ⟨last, hlog⟩ := load_geographic_file_log_shape env fp t g
    refine ⟨last, ?_⟩
    rw [hlog, hw]
    rfl
  · intro env2 hr hwr hrp
    exact load_geographic_file_success_congr env env2 fp t g hr hwr hrp

/-- Witness for C7: the states shapefile of `envW` has no companions on
disk, yet its read is attempted. -/
theorem C7_witness :
    (load_geographic_file envW "./tl_2024_us_state.shp" "tiger_states" "GEOID").reads
      = ["./tl_2024_us_state.shp"] :=
  (C7_shapefile_warning envW "./tl_2024_us_state.shp" "tiger_states" "GEOID"
    (by decide) (by decide)).2.1

/-- C8 counterexample: a run with zero failures (`envOk`: all four national
files load, no place files match) prints the loaded count but no failed
count at all — the summary does not report both counts. -/
theorem C8_counterexample :
    (mainRun envOk).failed = 0 ∧ LogLine.summaryLoaded 4 ∈ (mainRun envOk).log ∧
      containsFailedLine (mainRun envOk).log = false := by
  exact ⟨by decide, by decide, by decide⟩

/-- C8 amended: the final summary always reports the loaded count; it
reports the failed count exactly when at least one file failed (the
`if failed > 0` guard on line 172). -/
theorem C8_amended_summary (env : Env) :
    LogLine.summaryLoaded (mainRun env).loaded ∈ (mainRun env).log ∧
      ((mainRun env).failed > 0 →
        LogLine.summaryFailed (mainRun env).failed ∈ (mainRun env).log) ∧
      ((mainRun env).failed = 0 → containsFailedLine (mainRun env).log = false) := by
  obtain ⟨-, -, hl, hf, hlog⟩ := mainRun_fields env
  refine ⟨?_, ?_, ?_⟩
  · rw [hlog, hl]
    exact List.mem_append_right _ (summaryLoaded_mem_summaryLog _ _)
  · intro hpos
    rw [hf] at hpos
    rw [hlog, hf]
    exact List.mem_append_right _ (summaryFailed_mem_summaryLog _ _ hpos)
  · intro h0
    rw [hf] at h0
    rw [hlog, h0, containsFailedLine_append, containsFailedLine_append,
      containsFailedLine_append, preludeLog_noFailedLine, nationalLoop_log_noFailedLine,
      placesSection_log_noFailedLine, summaryLog_zero_noFailedLine]
    rfl

/-- Witness for C8 amended: the `envW` run has failures, so its failed count
is printed. -/
theorem C8_witness :
    LogLine.summaryFailed (mainRun envW).failed ∈ (mainRun envW).log :=
  (C8_amended_summary envW).2.1 (by decide)

/-- C9: a dataset that reads successfully but has no `geometry` column takes
the rename branch (line 57), which raises because `rename_columns` does not
exist on the dataset type; the exception is caught, the function returns
`False` (so the file is counted as a failure by every caller), and no write
is performed — a dataset with a differently named geometry column is never
written. -/
theorem C9_missing_geometry_column (env : Env) (fp t g : String) (gdf : GeoDataFrame)
    (hr : env.readFile fp = .ok gdf) (hg : "geometry" ∉ gdf.columns) :
    (load_geographic_file env fp t g).success = false ∧
      (load_geographic_file env fp t g).writes = [] ∧
      LogLine.errorMsg renameColumnsError ∈ (load_geographic_file env fp t g).log := by
  unfold load_geographic_file
  simp only [hr]
  rw [if_pos hg]
  exact ⟨rfl, rfl, by simp⟩

/-- Witness for C9: the `./nogeom.shp` dataset of `envW` has columns
`["GEOID", "geom"]` and its load returns failure. -/
theorem C9_witness :
    (load_geographic_file envW "./nogeom.shp" "tiger_states" "GEOID").success = false :=
  (C9_missing_geometry_column envW "./nogeom.shp" "tiger_states" "GEOID"
    ⟨some "EPSG:4326", ["GEOID", "geom"], [0]⟩ rfl (by decide)).1

/-- C10: the counters are naturals (hence non-negative) accumulated from
per-file deltas starting at zero; each file event increments exactly one of
the two counters by exactly one; after the national loop the two counters
sum to 4, the length of the fixed national list; and the run totals are the
monotone sums of the loop contributions. -/
theorem C10_counters (env : Env) :
    (nationalLoop env).loaded + (nationalLoop env).failed = 4 ∧
      (∀ entry ∈ files_to_load,
          ((processNationalEntry env entry).loaded = 1
              ∧ (processNationalEntry env entry).failed = 0) ∨
            ((processNationalEntry env entry).loaded = 0
              ∧ (processNationalEntry env entry).failed = 1)) ∧
      (∀ f : String,
          ((appendPlaceFile env f).loaded = 1 ∧ (appendPlaceFile env f).failed = 0) ∨
            ((appendPlaceFile env f).loaded = 0 ∧ (appendPlaceFile env f).failed = 1)) ∧
      (mainRun env).loaded = (nationalLoop env).loaded + (placesSection env).loaded ∧
      (mainRun env).failed = (nationalLoop env).failed + (placesSection env).failed := by
  exact ⟨nationalLoop_counts env, fun entry _ => processNationalEntry_counts env entry,
    fun f => appendPlaceFile_counts env f, (mainRun_fields env).2.2.1,
    (mainRun_fields env).2.2.2.1⟩

/-- Witness for C10: the states entry of the `envW` run increments exactly
one counter by one. -/
theorem C10_witness :
    ((processNationalEntry envW ("tl_2024_us_state.shp", "tiger_states", "GEOID")).loaded = 1
        ∧ (processNationalEntry envW ("tl_2024_us_state.shp", "tiger_states", "GEOID")).failed
            = 0) ∨
      ((processNationalEntry envW ("tl_2024_us_state.shp", "tiger_states", "GEOID")).loaded = 0
        ∧ (processNationalEntry envW ("tl_2024_us_state.shp", "tiger_states", "GEOID")).failed
            = 1) :=
  (C10_counters envW).2.1 ("tl_2024_us_state.shp", "tiger_states", "GEOID") (by decide)

end Tiger
